import Mathlib

/-
Verification development for the nanobot HTTP relay channel
(src/nanobot/channels/http_relay.py).

The relay exposes a POST /message endpoint.  `_handle_message_post` validates
the body, mints a uuid4 correlation id, registers a fresh asyncio.Queue in the
`_pending` dict, publishes the inbound message on the bus, and then drives a
delivery loop that dequeues outbound messages (with a 900 s wait_for window per
dequeue) and writes SSE events, terminating on the first non-progress message,
on timeout, or on an exception; a `finally` block pops the registry entry.
`send` routes outbound bus messages to the matching pending queue, silently
dropping messages with no resolvable correlation id.

The embedding below models Python values as a JSON-like inductive type,
Python dicts as association lists with first-occurrence lookup and
in-place-update/append assignment, the asyncio queue dequeues as a script of
loop inputs (a dequeued message, or a wait_for timeout), and exceptions as
explicit result constructors.
-/

namespace Nanobot

/-- Python values as seen by the relay: JSON scalars, lists and dicts.
`null` doubles as Python `None` (dict.get of a missing key returns None). -/
inductive Json where
  | null : Json
  | bool (b : Bool) : Json
  | num (n : Int) : Json
  | str (s : String) : Json
  | arr (elems : List Json) : Json
  | obj (fields : List (String × Json)) : Json

/-- Python truthiness for the modelled values (`bool(x)`). -/
def Json.truthy : Json → Bool
  | .null => false
  | .bool b => b
  | .num n => n != 0
  | .str s => !s.isEmpty
  | .arr elems => !elems.isEmpty
  | .obj fields => !fields.isEmpty

/-- Python `x is None` for the modelled values. -/
def Json.isNull : Json → Bool
  | .null => true
  | _ => false

/-- Python `a or b`: the first operand if truthy, otherwise the second. -/
def pyOr (a b : Json) : Json :=
  if a.truthy then a else b

/-- Dict lookup, `d.get(k)` without default: first entry with the key. -/
def dictGet? {α : Type} : List (String × α) → String → Option α
  | [], _ => none
  | (k1, v1) :: rest, k => if k1 = k then some v1 else dictGet? rest k

/-- Dict lookup with default, `d.get(k, v)`: the default is used only when the
key is absent. -/
def dictGetD {α : Type} (d : List (String × α)) (k : String) (v : α) : α :=
  (dictGet? d k).getD v

/-- Dict item assignment `d[k] = v`: update the entry in place if the key is
present, otherwise append it. -/
def pyDictSet {α : Type} : List (String × α) → String → α → List (String × α)
  | [], k, v => [(k, v)]
  | (k1, v1) :: rest, k, v =>
      if k1 = k then (k, v) :: rest else (k1, v1) :: pyDictSet rest k v

/-- Python `d.setdefault(k, v)`: insert `(k, v)` only when the key is absent. -/
def pyDictSetdefault {α : Type} (d : List (String × α)) (k : String) (v : α) :
    List (String × α) :=
  match dictGet? d k with
  | some _ => d
  | none => d ++ [(k, v)]

/-- Python `d.pop(k, None)`: remove the entry for the key, no-op if absent. -/
def pyDictPop {α : Type} : List (String × α) → String → List (String × α)
  | [], _ => []
  | (k1, v1) :: rest, k => if k1 = k then rest else (k1, v1) :: pyDictPop rest k

/-- Number of entries carrying a key in a dict-as-list. -/
def regCount {α : Type} : List (String × α) → String → Nat
  | [], _ => 0
  | (k1, _) :: rest, k => (if k1 = k then 1 else 0) + regCount rest k

/-- `d.get(k)` where an absent key yields Python `None` (`Json.null`). -/
def pyGet (fields : List (String × Json)) (k : String) : Json :=
  dictGetD fields k Json.null

/-- An outbound bus message: `content` plus optional `metadata` dict
(`OutboundMessage.metadata` is a dict or `None`). -/
structure OutboundMessage where
  content : String
  metadata : Option (List (String × Json))

/-- One SSE event as written by `_write_sse_event`: an event-type label and
the `content` field of the JSON payload. -/
structure SSEEvent where
  event : String
  content : String
deriving DecidableEq, Repr

/-- One namespace block of `_extract_request_id`: `md.get(ns, {})`, then, if
the value is a dict, its `request_id` entry when that is a non-empty string. -/
def requestIdFromNs (md : List (String × Json)) (ns : String) : Option String :=
  match dictGetD md ns (Json.obj []) with
  | Json.obj fields =>
      match dictGet? fields "request_id" with
      | some (Json.str s) => if s.isEmpty then none else some s
      | _ => none
  | _ => none

/-- `HttpRelayChannel._extract_request_id`: look for a non-empty string
`request_id` under the `progress` namespace first, then under `http_relay`.
Every attribute access in the source is guarded by an `isinstance(_, dict)`
check, so the function is total. -/
def _extract_request_id (msg : OutboundMessage) : Option String :=
  match requestIdFromNs (msg.metadata.getD []) "progress" with
  | some s => some s
  | none => requestIdFromNs (msg.metadata.getD []) "http_relay"

/-- The registry `_pending`: a dict from request id to the queued outbound
messages of that request's delivery channel. -/
abbrev Registry := List (String × List OutboundMessage)

/-- `HttpRelayChannel.send`: extract a correlation id; absent id or absent
registry entry means the message is silently dropped, otherwise it is enqueued
on the matching delivery channel. -/
def send (pending : Registry) (msg : OutboundMessage) : Registry :=
  match _extract_request_id msg with
  | none => pending
  | some rid =>
      match dictGet? pending rid with
      | none => pending
      | some q => pyDictSet pending rid (q ++ [msg])

/-- The `is_progress` computation of the delivery loop:
`bool((outbound.metadata or {}).get("progress", {}).get("is_progress"))`.
The second `.get` is unguarded in the source: when the `progress` value is
present but not a dict, Python raises `AttributeError`, modelled as
`Except.error`. -/
def isProgressOf (m : OutboundMessage) : Except Unit Bool :=
  match dictGetD (m.metadata.getD []) "progress" (Json.obj []) with
  | Json.obj fields => Except.ok (Json.truthy (dictGetD fields "is_progress" Json.null))
  | _ => Except.error ()

/-- One interaction of the delivery loop with its queue: either
`asyncio.wait_for(queue.get(), timeout=900)` raised `TimeoutError`, or it
returned a dequeued outbound message. -/
inductive LoopInput where
  | timeout : LoopInput
  | msg (m : OutboundMessage) : LoopInput

/-- How the delivery loop left the handler: a normal `return response`, an
SSE write that raised (client gone), the unguarded `.get` raising
`AttributeError` on a non-dict `progress` metadata value, or the scripted
queue interactions running out while the loop is still awaiting (the stream
is then still open; this is a boundary of the finite script, not a code
path). -/
inductive LoopExit where
  | returned : LoopExit
  | raisedWrite : LoopExit
  | raisedAttr : LoopExit
  | exhausted : LoopExit
deriving DecidableEq, Repr

/-- Result of running the delivery loop on a script: the SSE events actually
written, how the loop exited, the part of the script it never consumed, and
the index of the next SSE write. -/
structure LoopOut where
  writes : List SSEEvent
  exit : LoopExit
  unread : List LoopInput
  nextW : Nat

/-- The `while True` delivery loop of `_handle_message_post` (lines 146-169).
`writeOk n` tells whether the `n`-th SSE write on this stream succeeds; a
failed write models `response.write` raising after the client disconnected.
On timeout it writes one terminal `response` event and returns; on a dequeued
message it computes `is_progress` (which can raise `AttributeError`), writes a
`progress` or `response` event, and loops exactly when the flag was true. -/
def deliveryLoop (writeOk : Nat → Bool) : List LoopInput → Nat → LoopOut
  | [], w => ⟨[], LoopExit.exhausted, [], w⟩
  | LoopInput.timeout :: rest, w =>
      if writeOk w then
        ⟨[⟨"response", "Upstream response timed out."⟩], LoopExit.returned, rest, w + 1⟩
      else
        ⟨[], LoopExit.raisedWrite, rest, w + 1⟩
  | LoopInput.msg m :: rest, w =>
      match isProgressOf m with
      | Except.error _ => ⟨[], LoopExit.raisedAttr, rest, w⟩
      | Except.ok isP =>
          if writeOk w then
            if isP then
              let out := deliveryLoop writeOk rest (w + 1)
              ⟨⟨"progress", m.content⟩ :: out.writes, out.exit, out.unread, out.nextW⟩
            else
              ⟨[⟨"response", m.content⟩], LoopExit.returned, rest, w + 1⟩
          else
            ⟨[], LoopExit.raisedWrite, rest, w + 1⟩

/-- `HttpRelayChannel._normalize_metadata`: `dict(metadata)` when the value is
a dict, else `{}`. -/
def _normalize_metadata (metadata : Json) : List (String × Json) :=
  match metadata with
  | Json.obj fields => fields
  | _ => []

/-- Lines 106-107 of the handler:
`metadata.setdefault("http_relay", {})` followed by
`metadata["http_relay"]["request_id"] = request_id`.  The item assignment on
the value under `"http_relay"` raises `TypeError` when that value is not a
dict (modelled as `Except.error`). -/
def mergeRequestId (metadata : List (String × Json)) (request_id : String) :
    Except Unit (List (String × Json)) :=
  let md := pyDictSetdefault metadata "http_relay" (Json.obj [])
  match dictGet? md "http_relay" with
  | some (Json.obj inner) =>
      Except.ok (pyDictSet md "http_relay"
        (Json.obj (pyDictSet inner "request_id" (Json.str request_id))))
  | _ => Except.error ()

/-- The 400 condition of the handler:
`not sender_id or not chat_id or content is None`, with
`sender_id = body.get("senderId") or body.get("sender_id")` and the same
camelCase-or-snake_case fallback for the chat id. -/
def missingField (fields : List (String × Json)) : Bool :=
  !(pyOr (pyGet fields "senderId") (pyGet fields "sender_id")).truthy ||
  !(pyOr (pyGet fields "chatId") (pyGet fields "chat_id")).truthy ||
  (pyGet fields "content").isNull

/-- What `_handle_message_post` produced: an early `web.json_response` error,
an exception raised before the registry insertion (the `TypeError` of
`mergeRequestId`), the stream returned after its events, an exception raised
after the stream was opened (propagating out of the `try`), or a stream still
open because the script ran out. -/
inductive HandlerResult where
  | badRequest (status : Nat) (error : String) : HandlerResult
  | raisedPre : HandlerResult
  | streamClosed (events : List SSEEvent) : HandlerResult
  | streamRaised (events : List SSEEvent) : HandlerResult
  | streamOpen (events : List SSEEvent) : HandlerResult
deriving DecidableEq, Repr

/-- Whether the handler got as far as opening the SSE stream. -/
def HandlerResult.streamWasOpened : HandlerResult → Bool
  | .streamClosed _ => true
  | .streamRaised _ => true
  | .streamOpen _ => true
  | _ => false

/-- Whether the handler actually finished (returned or raised), as opposed to
the model artifact of an exhausted script with the stream still awaiting. -/
def HandlerResult.finished : HandlerResult → Bool
  | .streamOpen _ => false
  | _ => true

/-- A run of `_handle_message_post`: its result, the registry as it stands
while the stream is open (right after the insertion at line 111), and the
registry after the handler finished (the `finally` at lines 171-173 popped the
entry; if the script was exhausted the handler has not finished and the
mid-stream registry still stands). -/
structure HandlerOut where
  result : HandlerResult
  pendingMid : Registry
  pendingAfter : Registry

/-- The `try ... finally` part of the handler (lines 109-173), entered after
validation and metadata merging: insert the fresh queue, then either
`response.prepare` raises (`prepareOk = false`), or the bus publish raises
(`publishOk = false`, caught: one fallback terminal `response` event is
written) or the delivery loop runs; the `finally` pops the registry entry on
every finished path. -/
def streamPhase (request_id : String) (pending : Registry)
    (prepareOk publishOk : Bool) (script : List LoopInput) (writeOk : Nat → Bool) :
    HandlerOut :=
  let mid := pyDictSet pending request_id []
  let fin := pyDictPop mid request_id
  if prepareOk = false then
    ⟨HandlerResult.streamRaised [], mid, fin⟩
  else if publishOk = false then
    if writeOk 0 then
      ⟨HandlerResult.streamClosed
        [⟨"response", "I could not process this message. Please retry."⟩], mid, fin⟩
    else
      ⟨HandlerResult.streamRaised [], mid, fin⟩
  else
    let out := deliveryLoop writeOk script 0
    match out.exit with
    | LoopExit.returned => ⟨HandlerResult.streamClosed out.writes, mid, fin⟩
    | LoopExit.raisedWrite => ⟨HandlerResult.streamRaised out.writes, mid, fin⟩
    | LoopExit.raisedAttr => ⟨HandlerResult.streamRaised out.writes, mid, fin⟩
    | LoopExit.exhausted => ⟨HandlerResult.streamOpen out.writes, mid, mid⟩

/-- `HttpRelayChannel._handle_message_post` on a parsed JSON body.
`request_id` stands for the freshly minted `uuid4().hex`; `pending` is the
`_pending` registry when the request arrives; `prepareOk`, `publishOk`,
`script` and `writeOk` resolve the interactions with the transport, the bus
and the delivery queue.  A non-dict body is rejected by
`_parse_request_body`; missing required fields give the 400 response; the
merged metadata (carrying the correlation id) is handed to the bus publish,
which the model folds into `publishOk`. -/
def _handle_message_post (body : Json) (request_id : String) (pending : Registry)
    (prepareOk publishOk : Bool) (script : List LoopInput) (writeOk : Nat → Bool) :
    HandlerOut :=
  match body with
  | Json.obj fields =>
      if missingField fields then
        ⟨HandlerResult.badRequest 400 "Missing sender_id/chat_id/content", pending, pending⟩
      else
        match mergeRequestId
            (_normalize_metadata (pyOr (pyGet fields "metadata") (Json.obj [])))
            request_id with
        | Except.error _ => ⟨HandlerResult.raisedPre, pending, pending⟩
        | Except.ok _ => streamPhase request_id pending prepareOk publishOk script writeOk
  | _ => ⟨HandlerResult.badRequest 400 "Payload must be an object", pending, pending⟩

/-- The synthetic terminal event written when `asyncio.wait_for` times out. -/
def timeoutEvent : SSEEvent :=
  ⟨"response", "Upstream response timed out."⟩

/-- Timing model of the `asyncio.wait_for(queue.get(), timeout=900)` call that
the loop re-issues on every iteration: each arrival is tagged with the delay
(in seconds) between the start of that wait and the message becoming
available.  A delay of at least 900 means the wait times out first (the rest
of the arrivals are never seen); otherwise the message is dequeued and the
next wait starts a fresh 900-second window. -/
def waitScript : List (Nat × OutboundMessage) → List LoopInput
  | [] => []
  | (gap, m) :: rest =>
      if 900 ≤ gap then [LoopInput.timeout] else LoopInput.msg m :: waitScript rest

/-- Whether an `Except` value is a success. -/
def exceptIsOk {ε α : Type} : Except ε α → Bool
  | Except.ok _ => true
  | Except.error _ => false

/-- A well-formed request body used for concrete instantiations. -/
def sampleBody : Json :=
  Json.obj [("sender_id", Json.str "u1"), ("chat_id", Json.str "c1"), ("content", Json.str "hi")]

/-- A progress-flagged outbound message used for concrete instantiations. -/
def progressTick : OutboundMessage :=
  ⟨"tick", some [("progress", Json.obj [("is_progress", Json.bool true), ("request_id", Json.str "r1")])]⟩

/-- A terminal (non-progress) outbound message used for concrete instantiations. -/
def finalAnswer : OutboundMessage :=
  ⟨"hello back", some [("progress", Json.obj [("is_progress", Json.bool false), ("request_id", Json.str "r1")])]⟩

/-- An outbound message whose `progress` metadata value is a string rather
than a dict, while the `http_relay` namespace still carries a routable
request id. -/
def badProgressMsg : OutboundMessage :=
  ⟨"partial", some [("progress", Json.str "yes"), ("http_relay", Json.obj [("request_id", Json.str "r1")])]⟩

/- Helper lemmas about the dict-as-association-list operations. -/

theorem dictGet?_pyDictSet_self {α : Type} (d : List (String × α)) (k : String) (v : α) :
    dictGet? (pyDictSet d k v) k = some v := by
  induction d with
  | nil => simp [pyDictSet, dictGet?]
  | cons hd tl ih =>
      obtain ⟨k1, v1⟩ := hd
      by_cases h : k1 = k <;> simp [pyDictSet, dictGet?, h, ih]

theorem dictGet?_pyDictSet_ne {α : Type} (d : List (String × α)) (k k1 : String) (v : α)
    (h : k1 ≠ k) : dictGet? (pyDictSet d k v) k1 = dictGet? d k1 := by
  induction d with
  | nil => simp [pyDictSet, dictGet?, Ne.symm h]
  | cons hd tl ih =>
      obtain ⟨k2, v2⟩ := hd
      by_cases h2 : k2 = k
      · subst h2
        simp [pyDictSet, dictGet?, Ne.symm h]
      · simp [pyDictSet, dictGet?, h2, ih]

theorem dictGet?_append_of_none {α : Type} (d e : List (String × α)) (k : String)
    (h : dictGet? d k = none) : dictGet? (d ++ e) k = dictGet? e k := by
  induction d with
  | nil => simp [dictGet?]
  | cons hd tl ih =>
      obtain ⟨k1, v1⟩ := hd
      by_cases h1 : k1 = k
      · simp [dictGet?, h1] at h
      · simp [dictGet?, h1] at h ⊢
        exact ih h

theorem dictGet?_append_of_some {α : Type} (d e : List (String × α)) (k : String) (v : α)
    (h : dictGet? d k = some v) : dictGet? (d ++ e) k = some v := by
  induction d with
  | nil => simp [dictGet?] at h
  | cons hd tl ih =>
      obtain ⟨k1, v1⟩ := hd
      by_cases h1 : k1 = k
      · simp [dictGet?, h1] at h ⊢
        exact h
      · simp [dictGet?, h1] at h ⊢
        exact ih h

theorem regCount_pyDictSet_fresh {α : Type} (d : List (String × α)) (k : String) (v : α)
    (h : regCount d k = 0) : regCount (pyDictSet d k v) k = 1 := by
  induction d with
  | nil => simp [pyDictSet, regCount]
  | cons hd tl ih =>
      obtain ⟨k1, v1⟩ := hd
      by_cases h1 : k1 = k
      · simp [regCount, h1] at h
      · simp [regCount, h1] at h
        simp [pyDictSet, regCount, h1, ih h]

theorem regCount_pyDictPop {α : Type} (d : List (String × α)) (k : String) :
    regCount (pyDictPop d k) k = regCount d k - 1 := by
  induction d with
  | nil => simp [pyDictPop, regCount]
  | cons hd tl ih =>
      obtain ⟨k1, v1⟩ := hd
      by_cases h1 : k1 = k
      · simp [pyDictPop, regCount, h1]
      · simp [pyDictPop, regCount, h1, ih]

theorem requestIdFromNs_nonempty (md : List (String × Json)) (ns s : String)
    (h : requestIdFromNs md ns = some s) : s ≠ "" := by
  unfold requestIdFromNs at h
  cases hv : dictGetD md ns (Json.obj []) with
  | obj fields =>
      rw [hv] at h
      dsimp only at h
      cases hr : dictGet? fields "request_id" with
      | none => rw [hr] at h; simp at h
      | some j =>
          rw [hr] at h
          cases j with
          | str s0 =>
              dsimp only at h
              by_cases he : s0.isEmpty
              · rw [if_pos he] at h
                simp at h
              · rw [if_neg he] at h
                obtain rfl : s0 = s := Option.some.inj h
                intro heq
                rw [heq] at he
                exact he (by decide)
          | null => simp at h
          | bool b => simp at h
          | num n => simp at h
          | arr elems => simp at h
          | obj fields2 => simp at h
  | null => rw [hv] at h; simp at h
  | bool b => rw [hv] at h; simp at h
  | num n => rw [hv] at h; simp at h
  | str s1 => rw [hv] at h; simp at h
  | arr elems => rw [hv] at h; simp at h

/-- Registry and result shape of the post-registration phase: the mid-stream
registry is always the insertion, the post-return registry is always the pop,
and the stream counts as opened. -/
theorem streamPhase_spec (request_id : String) (pending : Registry)
    (prepareOk publishOk : Bool) (script : List LoopInput) (writeOk : Nat → Bool) :
    (streamPhase request_id pending prepareOk publishOk script writeOk).pendingMid
        = pyDictSet pending request_id [] ∧
    ((streamPhase request_id pending prepareOk publishOk script writeOk).result.finished = true →
      (streamPhase request_id pending prepareOk publishOk script writeOk).pendingAfter
        = pyDictPop (pyDictSet pending request_id []) request_id) ∧
    (streamPhase request_id pending prepareOk publishOk script writeOk).result.streamWasOpened
        = true := by
  unfold streamPhase
  cases prepareOk with
  | false => simp [HandlerResult.finished, HandlerResult.streamWasOpened]
  | true =>
      cases publishOk with
      | false =>
          cases hw : writeOk 0 <;>
            simp [hw, HandlerResult.finished, HandlerResult.streamWasOpened]
      | true =>
          cases hexit : (deliveryLoop writeOk script 0).exit <;>
            simp [hexit, HandlerResult.finished, HandlerResult.streamWasOpened]

/-- C2: for every message dequeued by the delivery loop, a true progress flag
makes the loop write a `progress` event and continue with the remaining
queue interactions (the message itself never terminates the stream), while a
false-or-absent flag makes the loop write a `response` event and return
immediately after exactly that event, leaving the rest of the queue
interactions unread. -/
theorem C2_progress_flag_controls_termination (m : OutboundMessage)
    (rest : List LoopInput) (w : Nat) (writeOk : Nat → Bool) (hw : writeOk w = true) :
    (isProgressOf m = Except.ok true →
       deliveryLoop writeOk (LoopInput.msg m :: rest) w =
         ⟨⟨"progress", m.content⟩ :: (deliveryLoop writeOk rest (w + 1)).writes,
          (deliveryLoop writeOk rest (w + 1)).exit,
          (deliveryLoop writeOk rest (w + 1)).unread,
          (deliveryLoop writeOk rest (w + 1)).nextW⟩) ∧
    (isProgressOf m = Except.ok false →
       deliveryLoop writeOk (LoopInput.msg m :: rest) w =
         ⟨[⟨"response", m.content⟩], LoopExit.returned, rest, w + 1⟩) := by
  constructor <;> intro h <;> simp [deliveryLoop, h, hw]

/-- Witness for C2 at a concrete terminal message: the loop writes exactly one
`response` event and returns with the rest of the script unread. -/
theorem C2_witness :
    deliveryLoop (fun _ => true) (LoopInput.msg finalAnswer :: [LoopInput.timeout]) 0 =
      ⟨[⟨"response", "hello back"⟩], LoopExit.returned, [LoopInput.timeout], 1⟩ :=
  (C2_progress_flag_controls_termination finalAnswer [LoopInput.timeout] 0 (fun _ => true) rfl).2 rfl

/-- C4: a request body missing any of the required fields (both spellings of
the sender id absent, both spellings of the chat id absent, or `content`
absent) is answered with the 400 response
`{"error": "Missing sender_id/chat_id/content"}`; the registry is untouched
and no stream is opened. -/
theorem C4_missing_fields_400 (fields : List (String × Json)) (request_id : String)
    (pending : Registry) (prepareOk publishOk : Bool) (script : List LoopInput)
    (writeOk : Nat → Bool)
    (hmiss : (dictGet? fields "senderId" = none ∧ dictGet? fields "sender_id" = none) ∨
             (dictGet? fields "chatId" = none ∧ dictGet? fields "chat_id" = none) ∨
             dictGet? fields "content" = none) :
    _handle_message_post (Json.obj fields) request_id pending prepareOk publishOk script writeOk =
      ⟨HandlerResult.badRequest 400 "Missing sender_id/chat_id/content", pending, pending⟩ := by
  have hm : missingField fields = true := by
    unfold missingField
    rcases hmiss with ⟨h1, h2⟩ | ⟨h1, h2⟩ | h1
    · simp [pyGet, dictGetD, pyOr, Json.truthy, Json.isNull, h1, h2]
    · simp [pyGet, dictGetD, pyOr, Json.truthy, Json.isNull, h1, h2]
    · simp [pyGet, dictGetD, pyOr, Json.truthy, Json.isNull, h1]
  simp [_handle_message_post, hm]

/-- Witness for C4: a body carrying only sender and chat ids (no `content`)
gets the 400 response and leaves the registry alone. -/
theorem C4_witness :
    _handle_message_post (Json.obj [("sender_id", Json.str "u1"), ("chat_id", Json.str "c1")])
        "r1" [] true true [] (fun _ => true) =
      ⟨HandlerResult.badRequest 400 "Missing sender_id/chat_id/content", [], []⟩ :=
  C4_missing_fields_400 [("sender_id", Json.str "u1"), ("chat_id", Json.str "c1")]
    "r1" [] true true [] (fun _ => true) (Or.inr (Or.inr rfl))

/-- C5: an outbound message yielding no correlation id, or one whose
correlation id has no registered entry, leaves `send` without effect: no
exception (the embedding is a total function), no registry or queue mutation,
and hence the message reaches no stream. -/
theorem C5_unroutable_dropped (pending : Registry) (msg : OutboundMessage) :
    (_extract_request_id msg = none → send pending msg = pending) ∧
    (∀ rid, _extract_request_id msg = some rid → dictGet? pending rid = none →
       send pending msg = pending) := by
  constructor
  · intro h
    unfold send
    rw [h]
  · intro rid h1 h2
    unfold send
    rw [h1]
    dsimp only
    rw [h2]

/-- Witness for C5: a message without metadata is dropped, and a message with
a correlation id absent from the registry is dropped. -/
theorem C5_witness :
    send [("r2", [])] ⟨"x", none⟩ = [("r2", [])] ∧
      send [("r2", [])] progressTick = [("r2", [])] :=
  ⟨(C5_unroutable_dropped [("r2", [])] ⟨"x", none⟩).1 rfl,
   (C5_unroutable_dropped [("r2", [])] progressTick).2 "r1" rfl rfl⟩

/-- C6: correlation-id extraction prefers the progress namespace: when
`metadata["progress"]["request_id"]` is a non-empty string it is returned even
though `metadata["http_relay"]["request_id"]` is present and may differ; the
relay namespace is consulted exactly when the progress namespace yields no
usable id. -/
theorem C6_progress_namespace_precedence :
    (∀ (c s t : String) (pRest hRest mdRest : List (String × Json)), s.isEmpty = false →
       _extract_request_id
         ⟨c, some (("progress", Json.obj (("request_id", Json.str s) :: pRest)) ::
             ("http_relay", Json.obj (("request_id", Json.str t) :: hRest)) :: mdRest)⟩
         = some s) ∧
    (∀ msg : OutboundMessage, requestIdFromNs (msg.metadata.getD []) "progress" = none →
       _extract_request_id msg = requestIdFromNs (msg.metadata.getD []) "http_relay") := by
  constructor
  · intro c s t pRest hRest mdRest hs
    simp [_extract_request_id, requestIdFromNs, dictGetD, dictGet?, hs]
  · intro msg h
    unfold _extract_request_id
    rw [h]

/-- Witness for C6: both namespaces present with different ids; the progress
namespace id wins. -/
theorem C6_witness :
    _extract_request_id
      ⟨"c", some [("progress", Json.obj [("request_id", Json.str "p1")]),
                  ("http_relay", Json.obj [("request_id", Json.str "h1")])]⟩ = some "p1" :=
  C6_progress_namespace_precedence.1 "c" "p1" "h1" [] [] [] (by decide)

/-- C9 (code bug witness): a dequeued message whose `progress` metadata value
is a string, while the `http_relay` namespace still routes it to this request,
makes the unguarded `.get("is_progress")` raise `AttributeError`; the handler
propagates the exception and returns with zero SSE events written, so no
terminal `response` event is emitted even though the stream was opened (the
`finally` still removes the registry entry). -/
theorem C9_bad_progress_no_terminal :
    _handle_message_post sampleBody "r1" [] true true
        [LoopInput.msg badProgressMsg] (fun _ => true) =
      ⟨HandlerResult.streamRaised [], [("r1", [])], []⟩ := by
  rfl

/-- C10: `_extract_request_id` is total on every metadata shape (its attribute
accesses are all isinstance-guarded in the source, so the embedding is a total
function) and never returns an empty string: the result is `none` or a
non-empty string. -/
theorem C10_extract_total (msg : OutboundMessage) :
    _extract_request_id msg = none ∨
      ∃ s, _extract_request_id msg = some s ∧ s ≠ "" := by
  unfold _extract_request_id
  cases hp : requestIdFromNs (msg.metadata.getD []) "progress" with
  | some s => exact Or.inr ⟨s, rfl, requestIdFromNs_nonempty _ _ _ hp⟩
  | none =>
      cases hr : requestIdFromNs (msg.metadata.getD []) "http_relay" with
      | some s => exact Or.inr ⟨s, rfl, requestIdFromNs_nonempty _ _ _ hr⟩
      | none => exact Or.inl rfl

/-- C1: for every valid inbound request whose fresh uuid correlation id is not
yet registered, the registry holds exactly one entry for that id while the
stream is open, and zero entries for it once the handler finished — on every
exit path (normal terminal event, timeout, publish failure, stream write
failure, and the delivery loop raising), since the `finally` pop runs
unconditionally. -/
theorem C1_registry_scoped (fields : List (String × Json)) (request_id : String)
    (pending : Registry) (prepareOk publishOk : Bool) (script : List LoopInput)
    (writeOk : Nat → Bool)
    (hfresh : regCount pending request_id = 0)
    (hvalid : missingField fields = false)
    (hmerge : exceptIsOk (mergeRequestId
        (_normalize_metadata (pyOr (pyGet fields "metadata") (Json.obj [])))
        request_id) = true) :
    regCount (_handle_message_post (Json.obj fields) request_id pending prepareOk publishOk
        script writeOk).pendingMid request_id = 1 ∧
    ((_handle_message_post (Json.obj fields) request_id pending prepareOk publishOk
        script writeOk).result.finished = true →
      regCount (_handle_message_post (Json.obj fields) request_id pending prepareOk publishOk
          script writeOk).pendingAfter request_id = 0) ∧
    (_handle_message_post (Json.obj fields) request_id pending prepareOk publishOk
        script writeOk).result.streamWasOpened = true := by
  have hred : _handle_message_post (Json.obj fields) request_id pending prepareOk publishOk
      script writeOk = streamPhase request_id pending prepareOk publishOk script writeOk := by
    cases hm : mergeRequestId
        (_normalize_metadata (pyOr (pyGet fields "metadata") (Json.obj []))) request_id with
    | error e =>
        rw [hm] at hmerge
        simp [exceptIsOk] at hmerge
    | ok md => simp [_handle_message_post, hvalid, hm]
  rw [hred]
  obtain ⟨h1, h2, h3⟩ :=
    streamPhase_spec request_id pending prepareOk publishOk script writeOk
  refine ⟨?_, ?_, h3⟩
  · rw [h1]
    exact regCount_pyDictSet_fresh pending request_id [] hfresh
  · intro hf
    rw [h2 hf, regCount_pyDictPop,
      regCount_pyDictSet_fresh pending request_id [] hfresh]

/-- Witness for C1: a valid request on an empty registry whose stream times
out has one mid-stream entry and none afterwards. -/
theorem C1_witness :
    regCount (_handle_message_post sampleBody "r1" [] true true
        [LoopInput.timeout] (fun _ => true)).pendingMid "r1" = 1 ∧
    ((_handle_message_post sampleBody "r1" [] true true
        [LoopInput.timeout] (fun _ => true)).result.finished = true →
      regCount (_handle_message_post sampleBody "r1" [] true true
          [LoopInput.timeout] (fun _ => true)).pendingAfter "r1" = 0) ∧
    (_handle_message_post sampleBody "r1" [] true true
        [LoopInput.timeout] (fun _ => true)).result.streamWasOpened = true :=
  C1_registry_scoped [("sender_id", Json.str "u1"), ("chat_id", Json.str "c1"),
      ("content", Json.str "hi")]
    "r1" [] true true [LoopInput.timeout] (fun _ => true) rfl rfl rfl

/-- C7 counterexample: registering a correlation id that is already present
does not fail at all — there is no duplicate check in the source
(`self._pending[request_id] = queue` at line 111).  With `"r1"` already
registered with a non-empty delivery channel, the handler proceeds normally
(here to a timeout-terminated stream) and the mid-stream registry maps `"r1"`
to the fresh empty queue: the existing entry's channel was silently
replaced, and no `DuplicateIdentifier` error exists anywhere in the code. -/
theorem C7_counterexample :
    _handle_message_post sampleBody "r1" [("r1", [progressTick])] true true
        [LoopInput.timeout] (fun _ => true) =
      ⟨HandlerResult.streamClosed [timeoutEvent], [("r1", [])], []⟩ := by
  rfl

/-- C7 as amended: registering an already-present correlation id silently
replaces the existing entry's delivery channel with the fresh empty queue and
the request proceeds without any failure; uniqueness relies solely on uuid4
generation. -/
theorem C7_silent_replacement (fields : List (String × Json)) (request_id : String)
    (pending : Registry) (prepareOk publishOk : Bool) (script : List LoopInput)
    (writeOk : Nat → Bool) (q0 : List OutboundMessage)
    (_hdup : dictGet? pending request_id = some q0)
    (hvalid : missingField fields = false)
    (hmerge : exceptIsOk (mergeRequestId
        (_normalize_metadata (pyOr (pyGet fields "metadata") (Json.obj [])))
        request_id) = true) :
    dictGet? (_handle_message_post (Json.obj fields) request_id pending prepareOk publishOk
        script writeOk).pendingMid request_id = some [] ∧
    (_handle_message_post (Json.obj fields) request_id pending prepareOk publishOk
        script writeOk).result.streamWasOpened = true := by
  have hred : _handle_message_post (Json.obj fields) request_id pending prepareOk publishOk
      script writeOk = streamPhase request_id pending prepareOk publishOk script writeOk := by
    cases hm : mergeRequestId
        (_normalize_metadata (pyOr (pyGet fields "metadata") (Json.obj []))) request_id with
    | error e =>
        rw [hm] at hmerge
        simp [exceptIsOk] at hmerge
    | ok md => simp [_handle_message_post, hvalid, hm]
  rw [hred]
  obtain ⟨h1, h2, h3⟩ :=
    streamPhase_spec request_id pending prepareOk publishOk script writeOk
  refine ⟨?_, h3⟩
  rw [h1]
  exact dictGet?_pyDictSet_self pending request_id []

/-- Witness for C7's amended statement at the counterexample's input. -/
theorem C7_witness :
    dictGet? (_handle_message_post sampleBody "r1" [("r1", [progressTick])] true true
        [LoopInput.timeout] (fun _ => true)).pendingMid "r1" = some [] ∧
    (_handle_message_post sampleBody "r1" [("r1", [progressTick])] true true
        [LoopInput.timeout] (fun _ => true)).result.streamWasOpened = true :=
  C7_silent_replacement [("sender_id", Json.str "u1"), ("chat_id", Json.str "c1"),
      ("content", Json.str "hi")]
    "r1" [("r1", [progressTick])] true true [LoopInput.timeout] (fun _ => true)
    [progressTick] rfl rfl rfl

/-- C8 counterexample: a caller-supplied metadata mapping that already carries
`http_relay.request_id` does not keep that value — the merge overwrites it
with the fresh correlation id (`metadata["http_relay"]["request_id"] =
request_id` at line 107), so not every caller-supplied key and value is
preserved unchanged. -/
theorem C8_counterexample :
    mergeRequestId [("http_relay", Json.obj [("request_id", Json.str "mine")])] "r1" =
        Except.ok [("http_relay", Json.obj [("request_id", Json.str "r1")])] ∧
      ("r1" : String) ≠ "mine" :=
  ⟨rfl, by decide⟩

/-- C8 as amended: when the merge succeeds, every caller-supplied metadata key
other than `http_relay` keeps its value; when the caller supplied an
`http_relay` mapping, its keys other than `request_id` keep their values; and
the merged metadata always carries the fresh id under
`http_relay.request_id`, overwriting any caller-supplied `request_id` there.
(When the caller's `http_relay` value is not a mapping, the item assignment
raises and the merge fails instead.) -/
theorem C8_merge_preservation (fields : List (String × Json)) (request_id : String)
    (md1 : List (String × Json))
    (hok : mergeRequestId fields request_id = Except.ok md1) :
    (∀ k v, k ≠ "http_relay" → dictGet? fields k = some v → dictGet? md1 k = some v) ∧
    (∀ inner k v, dictGet? fields "http_relay" = some (Json.obj inner) →
       k ≠ "request_id" → dictGet? inner k = some v →
       ∃ inner1, dictGet? md1 "http_relay" = some (Json.obj inner1) ∧
         dictGet? inner1 k = some v) ∧
    (∃ inner1, dictGet? md1 "http_relay" = some (Json.obj inner1) ∧
       dictGet? inner1 "request_id" = some (Json.str request_id)) := by
  unfold mergeRequestId pyDictSetdefault at hok
  cases hfr : dictGet? fields "http_relay" with
  | none =>
      rw [hfr] at hok
      dsimp only at hok
      have hget : dictGet? (fields ++ [("http_relay", Json.obj [])]) "http_relay"
          = some (Json.obj []) := by
        rw [dictGet?_append_of_none fields _ "http_relay" hfr]
        simp [dictGet?]
      rw [hget] at hok
      dsimp only at hok
      obtain rfl : pyDictSet (fields ++ [("http_relay", Json.obj [])]) "http_relay"
          (Json.obj (pyDictSet [] "request_id" (Json.str request_id))) = md1 :=
        Except.ok.inj hok
      refine ⟨?_, ?_, ?_⟩
      · intro k v hk hkv
        rw [dictGet?_pyDictSet_ne _ _ _ _ hk]
        exact dictGet?_append_of_some fields _ k v hkv
      · intro inner k v hinner
        exact absurd hinner (by simp)
      · refine ⟨pyDictSet [] "request_id" (Json.str request_id), ?_, ?_⟩
        · exact dictGet?_pyDictSet_self _ _ _
        · exact dictGet?_pyDictSet_self _ _ _
  | some j =>
      rw [hfr] at hok
      dsimp only at hok
      rw [hfr] at hok
      cases j with
      | obj inner0 =>
          dsimp only at hok
          obtain rfl : pyDictSet fields "http_relay"
              (Json.obj (pyDictSet inner0 "request_id" (Json.str request_id))) = md1 :=
            Except.ok.inj hok
          refine ⟨?_, ?_, ?_⟩
          · intro k v hk hkv
            rw [dictGet?_pyDictSet_ne _ _ _ _ hk]
            exact hkv
          · intro inner k v hinner hk hkv
            have hinj : inner0 = inner := Json.obj.inj (Option.some.inj hinner)
            refine ⟨pyDictSet inner0 "request_id" (Json.str request_id), ?_, ?_⟩
            · exact dictGet?_pyDictSet_self _ _ _
            · rw [dictGet?_pyDictSet_ne _ _ _ _ hk, hinj]
              exact hkv
          · refine ⟨pyDictSet inner0 "request_id" (Json.str request_id), ?_, ?_⟩
            · exact dictGet?_pyDictSet_self _ _ _
            · exact dictGet?_pyDictSet_self _ _ _
      | null => dsimp only at hok; exact absurd hok (by simp)
      | bool b => dsimp only at hok; exact absurd hok (by simp)
      | num n => dsimp only at hok; exact absurd hok (by simp)
      | str s => dsimp only at hok; exact absurd hok (by simp)
      | arr elems => dsimp only at hok; exact absurd hok (by simp)

/-- Witness for C8's amended statement: a caller key `foo` outside the relay
namespace and a caller key `trace` inside it survive; `request_id` is
overwritten. -/
theorem C8_witness :
    (∀ k v, k ≠ "http_relay" →
       dictGet? [("foo", Json.num 7),
         ("http_relay", Json.obj [("request_id", Json.str "mine"), ("trace", Json.bool true)])] k
           = some v →
       dictGet? [("foo", Json.num 7),
         ("http_relay", Json.obj [("request_id", Json.str "r1"), ("trace", Json.bool true)])] k
           = some v) ∧
    (∀ inner k v,
       dictGet? [("foo", Json.num 7),
         ("http_relay", Json.obj [("request_id", Json.str "mine"), ("trace", Json.bool true)])]
           "http_relay" = some (Json.obj inner) →
       k ≠ "request_id" → dictGet? inner k = some v →
       ∃ inner1,
         dictGet? [("foo", Json.num 7),
           ("http_relay", Json.obj [("request_id", Json.str "r1"), ("trace", Json.bool true)])]
             "http_relay" = some (Json.obj inner1) ∧
         dictGet? inner1 k = some v) ∧
    (∃ inner1,
       dictGet? [("foo", Json.num 7),
         ("http_relay", Json.obj [("request_id", Json.str "r1"), ("trace", Json.bool true)])]
           "http_relay" = some (Json.obj inner1) ∧
       dictGet? inner1 "request_id" = some (Json.str "r1")) :=
  C8_merge_preservation
    [("foo", Json.num 7),
     ("http_relay", Json.obj [("request_id", Json.str "mine"), ("trace", Json.bool true)])]
    "r1"
    [("foo", Json.num 7),
     ("http_relay", Json.obj [("request_id", Json.str "r1"), ("trace", Json.bool true)])]
    rfl

/-- Behaviour of the delivery loop under the wait_for timing model, for any
start index of the write counter: with only progress-flagged messages queued,
the timeout event appears exactly when some single inter-dequeue gap reaches
900 seconds, and when it appears it is the unique terminal event, preceded
only by progress events, with the loop returning. -/
theorem waitScript_timeout_aux :
    ∀ (arrivals : List (Nat × OutboundMessage)) (w : Nat),
      (∀ p ∈ arrivals, isProgressOf p.2 = Except.ok true) →
      ((timeoutEvent ∈ (deliveryLoop (fun _ => true) (waitScript arrivals) w).writes) ↔
         ∃ p ∈ arrivals, 900 ≤ p.1) ∧
      (timeoutEvent ∈ (deliveryLoop (fun _ => true) (waitScript arrivals) w).writes →
         ∃ pre, (deliveryLoop (fun _ => true) (waitScript arrivals) w).writes
             = pre ++ [timeoutEvent] ∧
           (∀ e ∈ pre, e.event = "progress") ∧
           (deliveryLoop (fun _ => true) (waitScript arrivals) w).exit = LoopExit.returned) := by
  intro arrivals
  induction arrivals with
  | nil =>
      intro w hprog
      constructor
      · simp [waitScript, deliveryLoop]
      · intro h
        simp [waitScript, deliveryLoop] at h
  | cons hd tl ih =>
      intro w hprog
      obtain ⟨gap, m⟩ := hd
      have hm : isProgressOf m = Except.ok true := hprog (gap, m) (List.mem_cons_self _ _)
      have htl : ∀ p ∈ tl, isProgressOf p.2 = Except.ok true :=
        fun p hp => hprog p (List.mem_cons_of_mem _ hp)
      by_cases hg : 900 ≤ gap
      · have hscript : waitScript ((gap, m) :: tl) = [LoopInput.timeout] := by
          simp [waitScript, hg]
        have hloop : deliveryLoop (fun _ => true) [LoopInput.timeout] w =
            ⟨[timeoutEvent], LoopExit.returned, [], w + 1⟩ := rfl
        rw [hscript, hloop]
        constructor
        · constructor
          · intro _
            exact ⟨(gap, m), List.mem_cons_self _ _, hg⟩
          · intro _
            exact List.mem_cons_self _ _
        · intro _
          refine ⟨[], rfl, ?_, rfl⟩
          intro e he
          exact absurd he (List.not_mem_nil e)
      · have hscript : waitScript ((gap, m) :: tl) = LoopInput.msg m :: waitScript tl := by
          simp [waitScript, hg]
        have hstep : deliveryLoop (fun _ => true) (LoopInput.msg m :: waitScript tl) w =
            ⟨⟨"progress", m.content⟩ ::
                (deliveryLoop (fun _ => true) (waitScript tl) (w + 1)).writes,
             (deliveryLoop (fun _ => true) (waitScript tl) (w + 1)).exit,
             (deliveryLoop (fun _ => true) (waitScript tl) (w + 1)).unread,
             (deliveryLoop (fun _ => true) (waitScript tl) (w + 1)).nextW⟩ := by
          simp [deliveryLoop, hm]
        obtain ⟨ihA, ihB⟩ := ih (w + 1) htl
        have hne : timeoutEvent ≠ (⟨"progress", m.content⟩ : SSEEvent) := by
          intro hEq
          have := congrArg SSEEvent.event hEq
          simp [timeoutEvent] at this
        rw [hscript, hstep]
        constructor
        · constructor
          · intro hmem
            rcases List.mem_cons.mp hmem with hEq | hmem2
            · exact absurd hEq hne
            · obtain ⟨p, hp, hge⟩ := ihA.mp hmem2
              exact ⟨p, List.mem_cons_of_mem _ hp, hge⟩
          · intro hex
            obtain ⟨p, hp, hge⟩ := hex
            rcases List.mem_cons.mp hp with hEq | hp2
            · rw [hEq] at hge
              exact absurd hge hg
            · exact List.mem_cons_of_mem _ (ihA.mpr ⟨p, hp2, hge⟩)
        · intro hmem
          have hmem2 : timeoutEvent ∈
              (deliveryLoop (fun _ => true) (waitScript tl) (w + 1)).writes := by
            rcases List.mem_cons.mp hmem with hEq | h2
            · exact absurd hEq hne
            · exact h2
          obtain ⟨pre, hpre, hall, hexit⟩ := ihB hmem2
          refine ⟨⟨"progress", m.content⟩ :: pre, ?_, ?_, hexit⟩
          · simp [hpre]
          · intro e he
            rcases List.mem_cons.mp he with hEq | h2
            · rw [hEq]
            · exact hall e h2

/-- C3: with only progress-flagged messages delivered, the wait_for timeout
fires if and only if some single wait goes 900 seconds without a dequeue —
the window restarts at every dequeue, so arbitrarily long total streaming
never times out as long as each gap stays below 900 — and when it fires the
loop writes exactly one terminal event, the timeout-notice `response`,
after nothing but `progress` events, and returns, closing the stream. -/
theorem C3_timeout_window (arrivals : List (Nat × OutboundMessage))
    (hprog : ∀ p ∈ arrivals, isProgressOf p.2 = Except.ok true) :
    ((timeoutEvent ∈ (deliveryLoop (fun _ => true) (waitScript arrivals) 0).writes) ↔
       ∃ p ∈ arrivals, 900 ≤ p.1) ∧
    (timeoutEvent ∈ (deliveryLoop (fun _ => true) (waitScript arrivals) 0).writes →
       ∃ pre, (deliveryLoop (fun _ => true) (waitScript arrivals) 0).writes
           = pre ++ [timeoutEvent] ∧
         (∀ e ∈ pre, e.event = "progress") ∧
         (deliveryLoop (fun _ => true) (waitScript arrivals) 0).exit = LoopExit.returned) :=
  waitScript_timeout_aux arrivals 0 hprog

/-- Witness for C3: progress messages arriving 899, 899 and 900 seconds after
the respective wait starts — total elapsed time far beyond 900 seconds, yet
the timeout fires only because the third gap reaches the window. -/
theorem C3_witness :
    timeoutEvent ∈ (deliveryLoop (fun _ => true)
      (waitScript [(899, progressTick), (899, progressTick), (900, progressTick)]) 0).writes :=
  (C3_timeout_window [(899, progressTick), (899, progressTick), (900, progressTick)]
      (by
        intro p hp
        cases hp with
        | head => rfl
        | tail _ hp1 =>
            cases hp1 with
            | head => rfl
            | tail _ hp2 =>
                cases hp2 with
                | head => rfl
                | tail _ hp3 => exact absurd hp3 (List.not_mem_nil p))).1.mpr
    ⟨(900, progressTick),
     List.mem_cons_of_mem _ (List.mem_cons_of_mem _ (List.mem_cons_self _ _)), by decide⟩

end Nanobot
